import Mathlib

/-
  Verification of the DataVisualiser document-factorisation pipeline.

  Shallow embedding of the Python sources:
    Visualiser/modules/common/{models,utils,creators,services,errors}.py
    Visualiser/modules/charts/{models,creators}.py
    Visualiser/modules/maps/{models,creators}.py
    app/Visualiser/modules/common/models.py   (the newer model classes:
      FilterExpression, Layer with filter_expression, Document)
    app/Visualiser/modules/maps/errors.py

  The repository carries two generations of its model classes; following the
  specification they are collapsed here: the newer classes (those under
  app/Visualiser) are used wherever both generations define a class.

  Python objects become Lean structures (attributes initialised to None become
  Option fields), Python exceptions become an explicit error type threaded with
  Except, and in-place mutation of the canvas and of layer axes is made
  explicit by returning the updated values.  Rendering-backend objects (bokeh
  figures, folium maps) are external collaborators; the canvas is embedded as
  the log of elements the recipes add to it, which is the only aspect of the
  backend objects the pipeline observes.
-/

/-- A Python value stored in a dataframe cell or a filter literal.  The
columns relevant to the claims hold integers and strings; numeric values are
embedded as integers (exact for every input analysed here). -/
inductive PyVal : Type where
  | int : Int → PyVal
  | str : String → PyVal
deriving DecidableEq

/-- str(v) as Python renders it for popups. -/
def PyVal.render : PyVal → String
  | .int n => toString n
  | .str s => s

/-- The parsed dataframe substitute: named columns, rows by position
(pandas.DataFrame as the pipeline uses it). -/
structure DataFrame where
  colNames : List String
  rows : List (List PyVal)
deriving DecidableEq

/-- Position of a named column. -/
def DataFrame.colIdx (df : DataFrame) (name : String) : Option Nat :=
  df.colNames.findIdx? (· == name)

/-- The cell of a row under a named column. -/
def DataFrame.cell (df : DataFrame) (row : List PyVal) (name : String) :
    Option PyVal :=
  match df.colIdx name with
  | none => none
  | some i => row[i]?

/-- The Python exceptions the pipeline can raise.  Structured counterparts of
common/errors.py plus the built-in exceptions the code lets escape.  The
constructor unknownRecipeError is the error the SPEC names for a failed recipe
lookup (§4.2, §4.4); the source defines no such class, and the constructor is
included only so that statements about it can be made - no embedded function
produces it. -/
inductive PyErr : Type where
  | keyError : String → PyErr
  | attributeError : String → PyErr
  | typeError : String → PyErr
  | parsingError : String → PyErr
  | creatorError : String → String → PyErr
  | invalidCoordinates : List String → PyErr
  | unknownRecipeError : PyErr
deriving DecidableEq

/-- Discriminator: is this error a CreatorError (common/errors.py line 112)?
InvalidCoordinatesError subclasses CreatorError (app maps/errors.py), so it
counts as one. -/
def PyErr.isCreatorError : PyErr → Bool
  | .creatorError _ _ => true
  | .invalidCoordinates _ => true
  | _ => false

/-- FilterExpression (app common/models.py lines 30-62): a leaf comparison
field-operator-value, or a composite combining two sub-expressions with a
boolean operator. -/
inductive FilterExpression : Type where
  | leaf : String → String → PyVal → FilterExpression
  | node : FilterExpression → String → FilterExpression → FilterExpression
deriving DecidableEq

/-- FilterExpression.__str__: the three parts a, operator, b joined by single
spaces. -/
def FilterExpression.render : FilterExpression → String
  | .leaf f op v => f ++ " " ++ op ++ " " ++ v.render
  | .node a op b => a.render ++ " " ++ op ++ " " ++ b.render

/-- One comparison as the table engine evaluates it.  Unsupported operator or
operand combinations fail like an unparsable predicate (§4.1). -/
def cmpVals (op : String) (x v : PyVal) : Except PyErr Bool :=
  match x, v with
  | .int a, .int b =>
    match op with
    | "==" => .ok (a == b)
    | "!=" => .ok (a != b)
    | "<=" => .ok (decide (a ≤ b))
    | ">=" => .ok (decide (b ≤ a))
    | "<" => .ok (decide (a < b))
    | ">" => .ok (decide (b < a))
    | _ => .error (.parsingError op)
  | .str a, .str b =>
    match op with
    | "==" => .ok (a == b)
    | "!=" => .ok (a != b)
    | _ => .error (.parsingError op)
  | _, _ => .error (.parsingError "type mismatch")

/-- Row-wise evaluation of a filter expression.  A field absent from the table
fails with ParsingError (§4.1). -/
def rowSatisfies (df : DataFrame) (row : List PyVal) :
    FilterExpression → Except PyErr Bool
  | .leaf f op v =>
    match df.cell row f with
    | none => .error (.parsingError f)
    | some x => cmpVals op x v
  | .node a op b => do
    let ra ← rowSatisfies df row a
    let rb ← rowSatisfies df row b
    match op with
    | "&" => .ok (ra && rb)
    | "|" => .ok (ra || rb)
    | _ => .error (.parsingError op)

/-- Row selection for DataFrameService.filter. -/
def filterRows (df : DataFrame) (e : FilterExpression) :
    List (List PyVal) → Except PyErr (List (List PyVal))
  | [] => .ok []
  | r :: rs => do
    let keep ← rowSatisfies df r e
    let rest ← filterRows df e rs
    .ok (if keep then r :: rest else rest)

/-- DataFrameService.filter (common/services.py lines 258-271): renders the
expression with str() and hands the string to pandas DataFrame.query.  The
pandas engine is an external collaborator; per §4.1/§8 of the specification it
selects exactly the rows satisfying the predicate row-wise, which is embedded
here as structural evaluation of the expression. -/
def DataFrameService.filter (data_frame : DataFrame)
    (filter_expression : FilterExpression) : Except PyErr DataFrame := do
  let rows ← filterRows data_frame filter_expression data_frame.rows
  .ok { data_frame with rows := rows }

/-- C4 fixture: a table whose age column holds 10, 20, 70 (spec §8 scenario). -/
def agesTable : DataFrame :=
  { colNames := ["age"], rows := [[.int 10], [.int 20], [.int 70]] }

/-- C4 fixture: the composite (age >= 18) & (age <= 65) with leaf
sub-expressions. -/
def ageFilter : FilterExpression :=
  .node (.leaf "age" ">=" (.int 18)) "&" (.leaf "age" "<=" (.int 65))

/-- Python "x or y" on optional strings: None and the empty string are falsy
(used by "axis.name or axis.data_field"). -/
def pyOr : Option String → Option String → Option String
  | some s, y => if s = "" then y else some s
  | none, y => y

/-- Python string formatting of an optional string: None prints as the text
None. -/
def pyFmt : Option String → String
  | none => "None"
  | some s => s

/-- Axis (app common/models.py lines 187-223): all attributes start as None. -/
structure Axis where
  data_field : Option String := none
  name : Option String := none
  data_type : Option String := none
deriving DecidableEq

/-- ObjectFigure (app common/models.py lines 136-184).  The shape key is the
name of the ObjectKey enum member; colour, opacity and size are styling
passed through to the rendering backend uninterpreted and kept here as raw
strings. -/
structure ObjectFigure where
  object_key : Option String := none
  colour : Option String := none
  opacity : Option String := none
  size : Option String := none
deriving DecidableEq

/-- Layer (app common/models.py lines 226-264). -/
structure Layer where
  axis : Axis := {}
  figure : ObjectFigure := {}
  filter_expression : Option FilterExpression := none
deriving DecidableEq

/-- ChartTitle (charts/models.py lines 236-281). -/
structure ChartTitle where
  title : Option String := none
  colour : Option String := none
  font : Option String := none
  font_style : Option String := none
deriving DecidableEq

/-- ChartOptions (charts/models.py lines 32-113). -/
structure ChartOptions where
  id : Option Int := none
  description : Option String := none
  width : Int := 500
  height : Int := 500
  x_axis : Axis := {}
  layers : List Layer := []
  title : ChartTitle := {}
deriving DecidableEq

/-- MapOptions (maps/models.py): DocumentOptions (title, description, x_axis,
layers, from Visualiser common/models.py) extended with latitude, longtitude
and tiles. -/
structure MapOptions where
  title : Option String := none
  description : Option String := none
  x_axis : Axis := {}
  layers : List Layer := []
  latitude : Axis := {}
  longtitude : Axis := {}
  tiles : Option String := none
deriving DecidableEq

/-- The model (DocumentOptions) of a document: chart options or map options.
The Chart / MapDocument subtypes each fix the object key and expose the model
through a typed accessor (spec §3; the newer Chart document class itself is
absent from the sources, only its callers are). -/
inductive DocModel : Type where
  | chart : ChartOptions → DocModel
  | mapOpts : MapOptions → DocModel
deriving DecidableEq

/-- document.model.layers. -/
def DocModel.layers : DocModel → List Layer
  | .chart o => o.layers
  | .mapOpts o => o.layers

/-- document.model.x_axis (present on both generations of DocumentOptions). -/
def DocModel.x_axis : DocModel → Axis
  | .chart o => o.x_axis
  | .mapOpts o => o.x_axis

/-- Replace the layers list (models in-place mutation of the layer objects
held by the options). -/
def DocModel.setLayers : DocModel → List Layer → DocModel
  | .chart o, ls => .chart { o with layers := ls }
  | .mapOpts o, ls => .mapOpts { o with layers := ls }

/-- DataSource (app common/models.py lines 65-133). -/
structure DataSource where
  data : Option DataFrame := none
  column_index : Option Int := none
  separator : Option String := none
  file_name : Option String := none
  datetime_columns : Option (List String) := none
  should_fill_missing_data : Bool := true
deriving DecidableEq

/-- Document (app common/models.py lines 332-365): model plus bound data
source; object_key is fixed by the subtype (Chart or MapDocument). -/
structure Document where
  model : DocModel
  data_source : DataSource := {}
deriving DecidableEq

/-- document.object_key.name ("Chart" for Chart, "Map" for MapDocument). -/
def Document.object_key : Document → String
  | d => match d.model with
    | .chart _ => "Chart"
    | .mapOpts _ => "Map"

/-- What a layer document carries as its data source: the plain filtered
dataframe (MapFactory) or a bokeh ColumnDataSource constructed from it
(ChartFactory, charts/creators.py line 262). -/
inductive LayerData : Type where
  | frame : Option DataFrame → LayerData
  | cds : Option DataFrame → LayerData
deriving DecidableEq

/-- The per-layer document (common/models.py LayerDocument together with its
chart and map specialisations; ChartLayerDocument adds x_axis, and
MapLayerDocument in maps/models.py adds latitude and longtitude).  object_key
is derived from layer.figure.object_key. -/
structure LayerDoc where
  model : Layer
  data_source : LayerData
  object_key : Option String
  x_axis : Option Axis := none
  latitude : Axis := {}
  longtitude : Axis := {}
deriving DecidableEq

/-- The two shapes DocumentRecipe.execute is called with: a full document
(base creation) or a layer document (layer append). -/
inductive AnyDoc : Type where
  | doc : Document → AnyDoc
  | layerDoc : LayerDoc → AnyDoc
deriving DecidableEq

/-- The object key build dispatches on (document.object_key; for a layer
document it can be None, whose .name access raises AttributeError). -/
def AnyDoc.object_key : AnyDoc → Option String
  | .doc d => some d.object_key
  | .layerDoc ld => ld.object_key

/-- A folium marker as the marker recipes build it: kind, polygon sides where
relevant, location and popup text (styling is passed through to folium uninterpreted). -/
structure MarkerRep where
  kind : String
  sides : Option Nat := none
  location : PyVal × PyVal
  popup : String
deriving DecidableEq

/-- One element a recipe adds to (or sets on) the canvas.  The canvas is the
log of these operations, in the order the backend object received them. -/
inductive CanvasOp : Type where
  | figureCreated : Int → Int → Option String → Option String → CanvasOp
  | titleSet : Option String → Option String → Option String → Option String → CanvasOp
  | yaxisLabel : Option String → CanvasOp
  | glyph : String → Option String → Option String → Option String → LayerData → CanvasOp
  | mapCreated : Option String → CanvasOp
  | featureGroup : Option String → List MarkerRep → CanvasOp
  | hoverToolAdded : List (Option String × String) → CanvasOp
  | layerControlAdded : CanvasOp
  | custom : String → CanvasOp
deriving DecidableEq

/-- The canvas under construction. -/
abbrev Canvas := List CanvasOp


/-- The recipe classes of the pipeline (charts/creators.py, maps/creators.py).
The factory takes its recipes enumeration as a constructor argument, so a
caller may register custom recipe classes; these are embedded by the recorder
constructors, which record their invocations on the canvas.  The optional second field of a recorder is its post_execute class attribute: none means the
attribute is absent, some none that it is None, and some (some t) that it is
the post-task recorderTask t. -/
inductive RecipeCls : Type where
  | chartRecipe
  | hoverToolRecipe
  | lineRecipe
  | circleRecipe
  | squareRecipe
  | mapRecipe
  | layerControlRecipe
  | markerRecipe
  | circleMarkerRecipe
  | polygonMarkerRecipe
  | rectangleMarkerRecipe
  | triangleMarkerRecipe
  | recorder : String → Option (Option String) → RecipeCls
  | recorderTask : String → RecipeCls
deriving DecidableEq

/-- The post_execute class attribute of a recipe class: none when no class in
the hierarchy defines it (its read then raises AttributeError).  Only
ChartRecipe (charts/creators.py line 190) and MapRecipe (maps/creators.py
line 177) define one. -/
def RecipeCls.post_execute_attr : RecipeCls → Option (Option RecipeCls)
  | .chartRecipe => some (some .hoverToolRecipe)
  | .mapRecipe => some (some .layerControlRecipe)
  | .recorder _ p => p.map (fun q => q.map RecipeCls.recorderTask)
  | _ => none

/-- getattr(row, axis.data_field) in the marker loop (maps/creators.py lines
54-57): a None field name is a TypeError, an absent column an
AttributeError. -/
def rowAttr (df : DataFrame) (row : List PyVal) (a : Axis) :
    Except PyErr PyVal :=
  match a.data_field with
  | none => .error (.typeError "attribute name must be string")
  | some f =>
    match df.cell row f with
    | none => .error (.attributeError f)
    | some v => .ok v

/-- The markers a marker recipe builds, one per data row (maps/creators.py
lines 53-62). -/
def buildMarkers (kind : String) (sides : Option Nat) (df : DataFrame)
    (latitude longtitude valueAxis : Axis) :
    List (List PyVal) → Except PyErr (List MarkerRep)
  | [] => .ok []
  | row :: rest => do
    let lat ← rowAttr df row latitude
    let lng ← rowAttr df row longtitude
    let v ← rowAttr df row valueAxis
    let ms ← buildMarkers kind sides df latitude longtitude valueAxis rest
    .ok ({ kind := kind, sides := sides, location := (lat, lng),
           popup := v.render } :: ms)

/-- The common body of MarkerRecipe._add_layer (maps/creators.py lines
34-64): iterate the dataframe of the layer, build one marker per row, then add the
feature group to the map.  Marker recipes do not mutate the layer. -/
def markerAdd (kind : String) (sides : Option Nat) (ld : LayerDoc)
    (c : Canvas) : Except PyErr (Canvas × Option Layer) :=
  let label := pyOr ld.model.axis.name ld.model.axis.data_field
  match ld.data_source with
  | .frame (some df) => do
    let ms ← buildMarkers kind sides df ld.latitude ld.longtitude
      ld.model.axis df.rows
    .ok (c ++ [.featureGroup label ms], none)
  | _ => .error (.attributeError "itertuples")

/-- The common body of the chart layer recipes (charts/creators.py lines
96-182): overwrite the axis name of the layer in place with the data field when the
name is falsy, set the y-axis label (twice for CircleRecipe, which sets it on
lines 142 and 144), and append the glyph bound to the x-axis and axis data
fields.  The updated layer is returned to make the in-place mutation of the
shared Layer object explicit. -/
def chartGlyphAdd (kind : String) (labelTwice : Bool) (ld : LayerDoc)
    (c : Canvas) : Except PyErr (Canvas × Option Layer) :=
  let l := ld.model
  let a : Axis := { l.axis with name := pyOr l.axis.name l.axis.data_field }
  match ld.x_axis with
  | none => .error (.attributeError "x_axis")
  | some xa =>
    let labels : Canvas :=
      if labelTwice then
        [.yaxisLabel a.name, .yaxisLabel (pyOr a.name a.data_field)]
      else [.yaxisLabel a.name]
    .ok (c ++ labels ++
          [.glyph kind xa.data_field a.data_field a.name ld.data_source],
         some { l with axis := a })

/-- DocumentRecipe.execute (common/creators.py lines 34-47) dispatched to the create
method of each recipe class.  Returns the canvas (created, or mutated by
appending) and, for the chart layer recipes, the layer whose axis they mutate
in place.  Calling a recipe in a role whose create signature does not accept
the arguments raises TypeError, and reading a model accessor the document does
not have raises AttributeError, as in Python. -/
def RecipeCls.exec : RecipeCls → AnyDoc → Option Canvas →
    Except PyErr (Canvas × Option Layer)
  | .chartRecipe, .doc d, none =>
    match d.model with
    | .chart o =>
      .ok ([.figureCreated o.height o.width o.x_axis.data_type
              (pyOr o.x_axis.name o.x_axis.data_field),
            .titleSet o.title.title o.title.colour o.title.font
              o.title.font_style], none)
    | .mapOpts _ => .error (.attributeError "chart_options")
  | .chartRecipe, .layerDoc _, none => .error (.attributeError "chart_options")
  | .chartRecipe, _, some _ => .error (.typeError "create")
  | .mapRecipe, .doc d, none =>
    match d.model with
    | .mapOpts o => .ok ([.mapCreated o.tiles], none)
    | .chart _ => .error (.attributeError "map_options")
  | .mapRecipe, .layerDoc _, none => .error (.attributeError "map_options")
  | .mapRecipe, _, some _ => .error (.typeError "create")
  | .lineRecipe, .layerDoc ld, some c => chartGlyphAdd "line" false ld c
  | .circleRecipe, .layerDoc ld, some c => chartGlyphAdd "circle" true ld c
  | .squareRecipe, .layerDoc ld, some c => chartGlyphAdd "square" false ld c
  | .lineRecipe, _, _ => .error (.typeError "create")
  | .circleRecipe, _, _ => .error (.typeError "create")
  | .squareRecipe, _, _ => .error (.typeError "create")
  | .markerRecipe, .layerDoc ld, some c => markerAdd "Marker" none ld c
  | .circleMarkerRecipe, .layerDoc ld, some c =>
    markerAdd "CircleMarker" none ld c
  | .polygonMarkerRecipe, .layerDoc ld, some c =>
    markerAdd "RegularPolygonMarker" (some 6) ld c
  | .rectangleMarkerRecipe, .layerDoc ld, some c =>
    markerAdd "RegularPolygonMarker" (some 4) ld c
  | .triangleMarkerRecipe, .layerDoc ld, some c =>
    markerAdd "RegularPolygonMarker" (some 3) ld c
  | .markerRecipe, _, _ => .error (.typeError "create")
  | .circleMarkerRecipe, _, _ => .error (.typeError "create")
  | .polygonMarkerRecipe, _, _ => .error (.typeError "create")
  | .rectangleMarkerRecipe, _, _ => .error (.typeError "create")
  | .triangleMarkerRecipe, _, _ => .error (.typeError "create")
  | .hoverToolRecipe, .doc d, some c =>
    match d.model with
    | .chart o =>
      let tooltips := o.layers.map
        (fun l => (l.axis.name, "@" ++ pyFmt l.axis.data_field))
      .ok ((if tooltips.length > 0 then c ++ [.hoverToolAdded tooltips]
            else c), none)
    | .mapOpts _ => .error (.attributeError "chart_options")
  | .hoverToolRecipe, .layerDoc _, some _ =>
    .error (.attributeError "chart_options")
  | .hoverToolRecipe, _, none => .error (.typeError "create")
  | .layerControlRecipe, _, some c => .ok (c ++ [.layerControlAdded], none)
  | .layerControlRecipe, _, none => .error (.typeError "create")
  | .recorder t _, _, none => .ok ([.custom ("create:" ++ t)], none)
  | .recorder t _, _, some c => .ok (c ++ [.custom ("append:" ++ t)], none)
  | .recorderTask t, _, none => .ok ([.custom ("create:" ++ t)], none)
  | .recorderTask t, _, some c => .ok (c ++ [.custom ("append:" ++ t)], none)

/-- The recipes enumeration handed to a factory: enum member name mapped to
the value of the member, which may be None (utils.py line 42 reads
_recipes[key].value). -/
abbrev Registry := List (String × Option RecipeCls)

/-- Factory._get_recipe (common/utils.py lines 35-48): index the enumeration
by object_key.name - a missing member raises KeyError, a None object_key makes
the .name access raise AttributeError - and raise AttributeError (message
Unknown recipe!) when the value of the member is None. -/
def getRecipe (recipes : Registry) : Option String → Except PyErr RecipeCls
  | none => .error (.attributeError "name")
  | some k =>
    match recipes.lookup k with
    | none => .error (.keyError k)
    | some none => .error (.attributeError "Unknown recipe!")
    | some (some r) => .ok r

/-- ChartRecipes (charts/creators.py lines 237-244). -/
def chartRecipes : Registry :=
  [("Chart", some .chartRecipe), ("Line", some .lineRecipe),
   ("Circle", some .circleRecipe), ("Square", some .squareRecipe)]

/-- MapRecipes (maps/creators.py lines 206-215). -/
def mapRecipes : Registry :=
  [("Map", some .mapRecipe), ("Circle", some .circleMarkerRecipe),
   ("Marker", some .markerRecipe),
   ("RectangleMarker", some .rectangleMarkerRecipe),
   ("TriangleMarker", some .triangleMarkerRecipe),
   ("Hexagon", some .polygonMarkerRecipe)]

/-- The two DocumentFactory subclasses in the sources (ChartFactory,
MapFactory); the subclass fixes validate and prepare_layer_document. -/
inductive FactoryKind : Type where
  | chart
  | map
deriving DecidableEq

/-- Is every value of the named column numeric?  A missing column counts as
not numeric (it cannot serve as a coordinate). -/
def columnNumeric (df : DataFrame) (name : String) : Bool :=
  match df.colIdx name with
  | none => false
  | some i =>
    df.rows.all (fun r =>
      match r[i]? with
      | some (.int _) => true
      | _ => false)

/-- Modelled from the spec: DataFrameService.get_invalid_columns is called by
MapFactory.validate (maps/creators.py line 230) but its definition is absent
from the sources; per §4.3 and §8 it returns the names of the given coordinate
columns that are missing from the dataframe or contain a non-numeric value. -/
def get_invalid_columns (columns_list : List Axis) (data_frame : DataFrame) :
    List String :=
  columns_list.filterMap (fun a =>
    let name := pyFmt a.data_field
    if columnNumeric data_frame name then none else some name)

/-- Factory validation.  ChartFactory.validate only defers to the abstract
base (a no-op).  MapFactory.validate (maps/creators.py lines 223-233) collects
the invalid coordinate columns of [latitude, longtitude] and raises
InvalidCoordinatesError listing them when there are any. -/
def validate (kind : FactoryKind) (document : Document) :
    Except PyErr Unit :=
  match kind with
  | .chart => .ok ()
  | .map =>
    match document.model with
    | .chart _ => .error (.attributeError "latitude")
    | .mapOpts o =>
      match document.data_source.data with
      | none => .error (.attributeError "data")
      | some df =>
        let invalid := get_invalid_columns [o.latitude, o.longtitude] df
        if invalid.length ≠ 0 then .error (.invalidCoordinates invalid)
        else .ok ()

/-- DocumentFactory.prepare_layer_data_source (common/creators.py lines
116-134): when a filter expression is present, filter the dataframe of the
document; otherwise return the dataframe itself (filtering a None dataframe
raises AttributeError on .query). -/
def prepare_layer_data_source (data_source : DataSource)
    (filter_expression : Option FilterExpression) :
    Except PyErr (Option DataFrame) :=
  match filter_expression with
  | some e =>
    match data_source.data with
    | none => .error (.attributeError "query")
    | some df => (DataFrameService.filter df e).map some
  | none => .ok data_source.data

/-- prepare_layer_document of the factory subclass: ChartFactory
(charts/creators.py lines 252-265) wraps the prepared table in a
ColumnDataSource and carries the x_axis of the document; MapFactory
(maps/creators.py lines 235-247) carries the table itself plus the latitude
and longtitude axes. -/
def prepare_layer_document (kind : FactoryKind) (document : Document)
    (layer : Layer) : Except PyErr LayerDoc :=
  match prepare_layer_data_source document.data_source
      layer.filter_expression with
  | .error e => .error e
  | .ok filtered =>
  match kind with
  | .chart =>
    .ok { model := layer, data_source := .cds filtered,
          object_key := layer.figure.object_key,
          x_axis := some document.model.x_axis }
  | .map =>
    match document.model with
    | .mapOpts o =>
      .ok { model := layer, data_source := .frame filtered,
            object_key := layer.figure.object_key,
            latitude := o.latitude, longtitude := o.longtitude }
    | .chart _ => .error (.attributeError "latitude")

/-- Outcome of one DocumentFactory.build call.  Because the canvas and the
layer objects are mutated in place in the source, an exception raised after
the recipe ran must not lose those mutations: failedAfter keeps them. -/
inductive BuildOut : Type where
  | ok : Canvas → Option Layer → List RecipeCls → BuildOut
  | failedBefore : List RecipeCls → PyErr → BuildOut
  | failedAfter : Canvas → Option Layer → List RecipeCls → PyErr → BuildOut
deriving DecidableEq

/-- DocumentFactory.build (common/creators.py lines 136-153): resolve the
recipe by the object key of the document, execute it, then read its post_execute
class attribute - unconditionally, so a recipe class that does not define the
attribute raises AttributeError at that point, after the recipe has already
run - and append the companion to the pending post-task list whenever it is
not None.  No check prevents queueing the same companion again. -/
def build (recipes : Registry) (tasks : List RecipeCls) (document : AnyDoc)
    (base_object : Option Canvas) : BuildOut :=
  match getRecipe recipes document.object_key with
  | .error e => .failedBefore tasks e
  | .ok recipe =>
    match recipe.exec document base_object with
    | .error e => .failedBefore tasks e
    | .ok (instanceC, mutated) =>
      match recipe.post_execute_attr with
      | none => .failedAfter instanceC mutated tasks
          (.attributeError "post_execute")
      | some none => .ok instanceC mutated tasks
      | some (some p) => .ok instanceC mutated (tasks ++ [p])

/-- One iteration of the create_object layer loop (common/creators.py lines
85-87): prepare the layer document, then build onto the canvas.  Returns the
canvas, the pending post-task list and the layer object as they stand
afterwards - keeping whatever in-place mutations had happened - plus the
exception raised, if any. -/
def layerStep (kind : FactoryKind) (recipes : Registry) (document : Document)
    (l : Layer) (c : Canvas) (t : List RecipeCls) :
    Canvas × List RecipeCls × Layer × Option PyErr :=
  match prepare_layer_document kind document l with
  | .error e => (c, t, l, some e)
  | .ok ld =>
    match build recipes t (.layerDoc ld) (some c) with
    | .failedBefore t1 e => (c, t1, l, some e)
    | .failedAfter c1 mutated t1 e => (c1, t1, mutated.getD l, some e)
    | .ok c1 mutated t1 => (c1, t1, mutated.getD l, none)

/-- The per-layer loop of create_object (common/creators.py lines 85-87),
threading the canvas, the pending post-task list and the layer objects (whose
axes the chart recipes mutate in place), and stopping at the first layer
whose step raises. -/
def runLayers (kind : FactoryKind) (recipes : Registry) (document : Document) :
    List Layer → Canvas → List RecipeCls →
    Canvas × List RecipeCls × List Layer × Option PyErr
  | [], c, t => (c, t, [], none)
  | l :: ls, c, t =>
    match layerStep kind recipes document l c t with
    | (c1, t1, l1, some e) => (c1, t1, l1 :: ls, some e)
    | (c1, t1, l1, none) =>
      match runLayers kind recipes document ls c1 t1 with
      | (c2, t2, ls2, e) => (c2, t2, l1 :: ls2, e)

/-- DocumentFactory.__post_create (common/creators.py lines 91-103): execute
every queued post-task, in queue order, against the document and the built
object. -/
def run_post_tasks (document : Document) :
    List RecipeCls → Canvas → Except PyErr Canvas
  | [], c => .ok c
  | p :: ps, c =>
    match p.exec (.doc document) (some c) with
    | .error e => .error e
    | .ok (c1, _) => run_post_tasks document ps c1

/-- Everything one create_object invocation produces: the canvas, the
post-task queue, the final state of the mutable layer objects of the document, and
the exception that aborted the construction, if any.  The factory starts each
embedded invocation with an empty task list (matching a freshly constructed
factory; the source factory object never clears the list between calls). -/
structure FactoryRun where
  canvas : Canvas := []
  tasks : List RecipeCls := []
  docFinal : Document
  err : Option PyErr := none
deriving DecidableEq

/-- DocumentFactory.create_object (common/creators.py lines 74-89): validate,
build the base, build each layer in list order, then run the queued
post-tasks.  There is no exception handler: any failure propagates to the
caller as the raw exception. -/
def createObjectFull (kind : FactoryKind) (recipes : Registry)
    (document : Document) : FactoryRun :=
  match validate kind document with
  | .error e => { docFinal := document, err := some e }
  | .ok _ =>
    match build recipes [] (.doc document) none with
    | .failedBefore _ e => { docFinal := document, err := some e }
    | .failedAfter c0 _ t0 e =>
      { canvas := c0, tasks := t0, docFinal := document, err := some e }
    | .ok c0 _ t0 =>
      match runLayers kind recipes document document.model.layers c0 t0 with
      | (c1, t1, layers1, some e) =>
        { canvas := c1, tasks := t1,
          docFinal := { document with model := document.model.setLayers layers1 },
          err := some e }
      | (c1, t1, layers1, none) =>
        let doc1 : Document :=
          { document with model := document.model.setLayers layers1 }
        match run_post_tasks doc1 t1 c1 with
        | .error e =>
          { canvas := c1, tasks := t1, docFinal := doc1, err := some e }
        | .ok c2 =>
          { canvas := c2, tasks := t1, docFinal := doc1, err := none }

/-- The value create_object returns to its caller: the finished canvas, or
the raised exception (in which case no canvas is handed out). -/
def create_object (kind : FactoryKind) (recipes : Registry)
    (document : Document) : Except PyErr Canvas :=
  match createObjectFull kind recipes document with
  | { err := some e, .. } => .error e
  | { canvas := c, err := none, .. } => .ok c

/-
  Class-level shared default (app common/models.py line 344):
  the class body of Document executes _data_source = DataSource() once, so
  every instance that never assigns data_source reads the single class-level
  DataSource object.  Python attribute semantics are embedded with an explicit
  heap of DataSource objects: references are naturals, the class-level default
  lives at reference 0, and an instance either carries its own reference in
  its instance dictionary or falls back to the class default.
-/

/-- Heap of DataSource objects. -/
abbrev DSHeap := Nat → Option DataSource

/-- The reference held by the Document CLASS attribute _data_source. -/
def documentClassDefaultRef : Nat := 0

/-- The heap right after the class bodies executed: only the class-level
default DataSource() exists. -/
def initialHeap : DSHeap :=
  fun n => if n = 0 then some {} else none

/-- A Document instance: its instance dictionary either holds its own
_data_source reference (after an assignment to data_source) or nothing. -/
structure DocumentInstance where
  data_source_attr : Option Nat := none
deriving DecidableEq

/-- Attribute lookup for document.data_source: the instance attribute when
present, otherwise the class attribute. -/
def DocumentInstance.data_source_ref (d : DocumentInstance) : Nat :=
  d.data_source_attr.getD documentClassDefaultRef

/-- Dereference document.data_source. -/
def readDataSource (h : DSHeap) (d : DocumentInstance) : Option DataSource :=
  h d.data_source_ref

/-- document.data_source.data = df: mutate, in place, the DataSource object
the instance resolves to. -/
def setDataThrough (h : DSHeap) (d : DocumentInstance) (df : DataFrame) :
    DSHeap :=
  fun n =>
    if n = d.data_source_ref then
      (h n).map (fun ds => { ds with data := some df })
    else h n

/- Concrete fixtures used by the claim theorems. -/

/-- A layer whose figure carries the given shape key and nothing else. -/
def layerWithKey (k : String) : Layer :=
  { figure := { object_key := some k } }

/-- A registry of caller-supplied recorder recipes: the base recipe (under the
Chart key) declares post_execute = None, and two distinct layer recipes L1 and
L2 declare the same post-task companion p. -/
def recorderRegistry (b l1 l2 p : String) : Registry :=
  [("Chart", some (.recorder b (some none))),
   ("L1", some (.recorder l1 (some (some p)))),
   ("L2", some (.recorder l2 (some (some p))))]

/-- A chart document with one L1 layer and one L2 layer. -/
def twoLayerChartDoc (ds : DataSource) : Document :=
  { model := .chart { layers := [layerWithKey "L1", layerWithKey "L2"] },
    data_source := ds }

/-- A line layer bound to the squares column, with no display name set. -/
def lineLayer : Layer :=
  { axis := { data_field := some "squares" },
    figure := { object_key := some "Line" } }

/-- A chart document with x_axis on numbers and a single line layer. -/
def lineChartDoc : Document :=
  { model := .chart { x_axis := { data_field := some "numbers" },
                      layers := [lineLayer] } }

/-- A registry whose base and Good layer recipes succeed (recorders with a
present post_execute). -/
def recorderPassRegistry : Registry :=
  [("Chart", some (.recorder "B" (some none))),
   ("Good", some (.recorder "G" (some none)))]

/-- A chart document with default options. -/
def plainChartDoc : Document := { model := .chart {} }

/-- A chart document with a single layer whose shape key Triangle has no
entry in ChartRecipes. -/
def triangleChartDoc : Document :=
  { model := .chart { layers := [layerWithKey "Triangle"] } }

/-- A dataframe with fully numeric lat and lng columns. -/
def coordsFrame : DataFrame :=
  { colNames := ["lat", "lng"], rows := [[.int 1, .int 2], [.int 3, .int 4]] }

/-- A dataframe whose lat column contains a non-numeric value. -/
def badCoordsFrame : DataFrame :=
  { colNames := ["lat", "lng"], rows := [[.str "x", .int 2]] }

/-- Map options with latitude and longtitude bound to lat and lng. -/
def mapOptsLL : MapOptions :=
  { latitude := { data_field := some "lat" },
    longtitude := { data_field := some "lng" }, tiles := some "OSM" }

/-- A zero-layer map document over fully numeric coordinates. -/
def goodMapDoc : Document :=
  { model := .mapOpts mapOptsLL, data_source := { data := some coordsFrame } }

/-- A map document whose lat column contains a non-numeric value. -/
def badMapDoc : Document :=
  { model := .mapOpts mapOptsLL,
    data_source := { data := some badCoordsFrame } }

/-- A one-row one-column dataframe. -/
def smallFrame : DataFrame := { colNames := ["a"], rows := [[.int 1]] }

/-- A line layer with no filter expression. -/
def noFilterLayer : Layer := { figure := { object_key := some "Line" } }

/-- A chart document over smallFrame with one unfiltered layer. -/
def smallChartDoc : Document :=
  { model := .chart { layers := [noFilterLayer] },
    data_source := { data := some smallFrame } }

/-- A one-row dataframe for the shared-default scenario. -/
def c10Frame : DataFrame := { colNames := ["v"], rows := [[.int 7]] }

/-
  Theorems.  First general lemmas about the pipeline, then the claim
  theorems C1-C10 with their witnesses and counterexamples.
-/

/-- A successfully prepared layer document carries the shape key of the layer as
its object key (both factory subclasses set it from layer.figure.object_key). -/
theorem prepare_layer_document_key (kind : FactoryKind) (doc : Document)
    (l : Layer) (ld : LayerDoc)
    (h : prepare_layer_document kind doc l = .ok ld) :
    ld.object_key = l.figure.object_key := by
  unfold prepare_layer_document at h
  cases hf : prepare_layer_data_source doc.data_source l.filter_expression with
  | error e => rw [hf] at h; cases h
  | ok filtered =>
    rw [hf] at h
    cases kind with
    | chart =>
      simp only [Except.ok.injEq] at h
      subst h; rfl
    | map =>
      cases hm : doc.model with
      | chart o => rw [hm] at h; cases h
      | mapOpts o =>
        rw [hm] at h
        simp only [Except.ok.injEq] at h
        subst h; rfl

/-- Appending more layers to a loop that completed without error continues
from its canvas, task list and updated layers. -/
theorem runLayers_append (kind : FactoryKind) (reg : Registry)
    (doc : Document) :
    ∀ (ls1 ls2 : List Layer) (c : Canvas) (t : List RecipeCls)
      (c1 : Canvas) (t1 : List RecipeCls) (u1 : List Layer),
      runLayers kind reg doc ls1 c t = (c1, t1, u1, none) →
      runLayers kind reg doc (ls1 ++ ls2) c t =
        ((runLayers kind reg doc ls2 c1 t1).1,
         (runLayers kind reg doc ls2 c1 t1).2.1,
         u1 ++ (runLayers kind reg doc ls2 c1 t1).2.2.1,
         (runLayers kind reg doc ls2 c1 t1).2.2.2) := by
  intro ls1
  induction ls1 with
  | nil =>
    intro ls2 c t c1 t1 u1 h
    simp only [runLayers, Prod.mk.injEq] at h
    obtain ⟨hc, ht, hu, -⟩ := h
    subst hc; subst ht; subst hu
    simp only [List.nil_append]
  | cons hd tl ih =>
    intro ls2 c t c1 t1 u1 h
    simp only [runLayers, List.cons_append] at h ⊢
    generalize layerStep kind reg doc hd c t = st at h ⊢
    rcases st with ⟨cs, ts, l1, es⟩
    cases es with
    | some e => simp at h
    | none =>
      rcases hrl : runLayers kind reg doc tl cs ts with ⟨c2, t2, u2, e2⟩
      have h2 : ((runLayers kind reg doc tl cs ts).1,
          (runLayers kind reg doc tl cs ts).2.1,
          l1 :: (runLayers kind reg doc tl cs ts).2.2.1,
          (runLayers kind reg doc tl cs ts).2.2.2) = (c1, t1, u1, none) := h
      rw [hrl] at h2
      simp only [Prod.mk.injEq] at h2
      obtain ⟨hc2, ht2, hu, he⟩ := h2
      have hok : runLayers kind reg doc tl cs ts = (c1, t1, u2, none) := by
        rw [hrl, hc2, ht2, he]
      have hih := ih ls2 cs ts c1 t1 u2 hok
      show ((runLayers kind reg doc (tl ++ ls2) cs ts).1,
          (runLayers kind reg doc (tl ++ ls2) cs ts).2.1,
          l1 :: (runLayers kind reg doc (tl ++ ls2) cs ts).2.2.1,
          (runLayers kind reg doc (tl ++ ls2) cs ts).2.2.2) = _
      rw [hih]
      subst hu
      simp [List.cons_append]

/-- If some layer of the list resolves to a recipe class whose post_execute
attribute is absent, the layer loop aborts with an exception. -/
theorem runLayers_err_of_bad_layer (kind : FactoryKind) (reg : Registry)
    (doc : Document) (l : Layer) (r : RecipeCls)
    (hr : getRecipe reg l.figure.object_key = .ok r)
    (hp : r.post_execute_attr = none) :
    ∀ (ls : List Layer) (c : Canvas) (t : List RecipeCls), l ∈ ls →
      (runLayers kind reg doc ls c t).2.2.2.isSome := by
  intro ls
  induction ls with
  | nil => intro c t hmem; cases hmem
  | cons hd tl ih =>
    intro c t hmem
    simp only [runLayers]
    rcases hst : layerStep kind reg doc hd c t with ⟨cs, ts, l1, es⟩
    cases es with
    | some e => simp
    | none =>
      rcases List.mem_cons.mp hmem with heq | hmemtl
      · exfalso
        subst heq
        unfold layerStep at hst
        cases hprep : prepare_layer_document kind doc l with
        | error e0 => rw [hprep] at hst; simp at hst
        | ok ld =>
          rw [hprep] at hst
          have hkey := prepare_layer_document_key kind doc l ld hprep
          simp only [build, AnyDoc.object_key, hkey, hr, hp] at hst
          cases hex : r.exec (.layerDoc ld) (some c) with
          | error e0 => rw [hex] at hst; simp at hst
          | ok pr =>
            rw [hex] at hst
            rcases pr with ⟨ci, mi⟩
            simp at hst
      · have hrec := ih cs ts hmemtl
        show (match runLayers kind reg doc tl cs ts with
              | (c2, t2, ls2, e) => (c2, t2, l1 :: ls2, e)).2.2.2.isSome
        exact hrec

/-- C2: for every layer whose resolved recipe class defines no post_execute
attribute anywhere in its class hierarchy, the unconditional read in
DocumentFactory.build of recipe.post_execute raises AttributeError - after the
recipe has executed - so create_object fails for any document containing at
least one such layer. -/
theorem missing_post_execute_fails (kind : FactoryKind) (reg : Registry)
    (doc : Document) (l : Layer) (r : RecipeCls)
    (hmem : l ∈ doc.model.layers)
    (hr : getRecipe reg l.figure.object_key = .ok r)
    (hp : r.post_execute_attr = none) :
    (createObjectFull kind reg doc).err.isSome ∧
    ∀ (ld : LayerDoc) (c : Canvas) (t : List RecipeCls)
      (res : Canvas × Option Layer),
      ld.object_key = l.figure.object_key →
      r.exec (.layerDoc ld) (some c) = .ok res →
      build reg t (.layerDoc ld) (some c) =
        .failedAfter res.1 res.2 t (.attributeError "post_execute") := by
  constructor
  · unfold createObjectFull
    split
    · simp
    · split
      · simp
      · simp
      · rename_i c0 m t0 heqb
        split
        · simp
        · rename_i c1 t1 layers1 heqrl
          have hsome := runLayers_err_of_bad_layer kind reg doc l r hr hp
            doc.model.layers c0 t0 hmem
          rw [heqrl] at hsome
          simp at hsome
  · intro ld c t res hld hres
    simp only [build, AnyDoc.object_key, hld, hr, hres, hp]

/-- C4: the composite FilterExpression (age >= 18) & (age <= 65), whose two
sub-expressions are the leaf comparisons and whose boolean operator is "&",
applied to a table whose age column holds [10, 20, 70] returns the filtered
table containing exactly the one row with age 20. -/
theorem filter_ages_composite :
    DataFrameService.filter agesTable ageFilter =
      .ok { colNames := ["age"], rows := [[.int 20]] } := by
  rfl

/-- C2 witness: a chart document with one Line layer - whose recipe class
hierarchy defines no post_execute - makes create_object fail with
AttributeError. -/
theorem missing_post_execute_fails_witness :
    lineLayer ∈ lineChartDoc.model.layers ∧
    getRecipe chartRecipes lineLayer.figure.object_key = .ok .lineRecipe ∧
    RecipeCls.lineRecipe.post_execute_attr = none ∧
    (createObjectFull .chart chartRecipes lineChartDoc).err.isSome ∧
    (createObjectFull .chart chartRecipes lineChartDoc).err =
      some (.attributeError "post_execute") := by
  refine ⟨by decide, rfl, rfl, ?_, rfl⟩
  exact (missing_post_execute_fails .chart chartRecipes lineChartDoc lineLayer
    .lineRecipe (by decide) rfl rfl).1

/-- C1 (counterexample): with two distinct layer recipes sharing one
post_execute companion, the companion is queued twice and executed twice,
not at most once and exactly once. -/
theorem shared_post_task_counterexample :
    (createObjectFull .chart (recorderRegistry "B" "L1" "L2" "P")
        (twoLayerChartDoc {})).tasks.count (.recorderTask "P") = 2 ∧
    (createObjectFull .chart (recorderRegistry "B" "L1" "L2" "P")
        (twoLayerChartDoc {})).canvas.count (.custom "append:P") = 2 := by
  exact ⟨by decide, by decide⟩

/-- C1 (amended): build appends the post_execute companion of a resolved recipe on
every build call, with no already-queued check, so a companion shared by two
distinct layer recipes is queued once per layer and executed that many times;
all queued post-tasks do run after all layers, in queue order. -/
theorem shared_post_task_queued_per_build (b l1 l2 p : String)
    (ds : DataSource) :
    createObjectFull .chart (recorderRegistry b l1 l2 p)
        (twoLayerChartDoc ds) =
      { canvas := [.custom ("create:" ++ b), .custom ("append:" ++ l1),
                   .custom ("append:" ++ l2), .custom ("append:" ++ p),
                   .custom ("append:" ++ p)],
        tasks := [.recorderTask p, .recorderTask p],
        docFinal := twoLayerChartDoc ds, err := none } := by
  rfl

/-- C1 witness: the amended statement at concrete recipe tags and an empty
data source. -/
theorem shared_post_task_queued_per_build_witness :
    createObjectFull .chart (recorderRegistry "B" "L1" "L2" "P")
        (twoLayerChartDoc {}) =
      { canvas := [.custom "create:B", .custom "append:L1",
                   .custom "append:L2", .custom "append:P",
                   .custom "append:P"],
        tasks := [.recorderTask "P", .recorderTask "P"],
        docFinal := twoLayerChartDoc {}, err := none } :=
  shared_post_task_queued_per_build "B" "L1" "L2" "P" {}

/-- C3 (counterexample): looking up the unregistered Triangle key raises
KeyError, not the UnknownRecipeError the claim names (no such error class
exists in the sources). -/
theorem unknown_recipe_lookup_counterexample :
    getRecipe chartRecipes (some "Triangle") = .error (.keyError "Triangle") ∧
    PyErr.keyError "Triangle" ≠ PyErr.unknownRecipeError := by
  exact ⟨rfl, by decide⟩

/-- C3 (amended): lookup of a key with no registered recipe raises (KeyError,
or AttributeError for a None value or key - never a silent pass-through), and
when the unknown key belongs to a layer the error is raised before any canvas
mutation for that layer: the loop stops with the canvas exactly as the prior
layers left it. -/
theorem unknown_recipe_error_before_mutation (kind : FactoryKind)
    (reg : Registry) (doc : Document) (pre rest : List Layer) (bad : Layer)
    (ld : LayerDoc) (e : PyErr) (c c1 : Canvas) (t t1 : List RecipeCls)
    (u1 : List Layer)
    (hpre : runLayers kind reg doc pre c t = (c1, t1, u1, none))
    (hprep : prepare_layer_document kind doc bad = .ok ld)
    (hbad : getRecipe reg bad.figure.object_key = .error e) :
    runLayers kind reg doc (pre ++ bad :: rest) c t =
      (c1, t1, u1 ++ bad :: rest, some e) := by
  have happ := runLayers_append kind reg doc pre (bad :: rest) c t c1 t1 u1
    hpre
  rw [happ]
  have hkey := prepare_layer_document_key kind doc bad ld hprep
  have hstep : layerStep kind reg doc bad c1 t1 = (c1, t1, bad, some e) := by
    unfold layerStep
    rw [hprep]
    simp only [build, AnyDoc.object_key, hkey, hbad]
  have hrun : runLayers kind reg doc (bad :: rest) c1 t1 =
      (c1, t1, bad :: rest, some e) := by
    simp only [runLayers, hstep]
  rw [hrun]

/-- C3 witness: the amended statement for a one-layer successful prefix and a
layer with the unregistered key Nope. -/
theorem unknown_recipe_error_before_mutation_witness :
    runLayers .chart recorderPassRegistry plainChartDoc
        ([layerWithKey "Good"] ++ layerWithKey "Nope" :: []) [] [] =
      ([.custom "append:G"], [],
       [layerWithKey "Good"] ++ layerWithKey "Nope" :: [],
       some (.keyError "Nope")) :=
  unknown_recipe_error_before_mutation .chart recorderPassRegistry
    plainChartDoc [layerWithKey "Good"] [] (layerWithKey "Nope")
    { model := layerWithKey "Nope", data_source := .cds none,
      object_key := some "Nope", x_axis := some {} }
    (.keyError "Nope") [] [.custom "append:G"] [] [] [layerWithKey "Good"]
    rfl rfl rfl

/-- C5 (counterexample): for a chart layer with a null filter the table handed
to the layer recipe is a ColumnDataSource constructed from the table of the
document, not the very table object of the document itself. -/
theorem null_filter_chart_wraps_table :
    prepare_layer_document .chart smallChartDoc noFilterLayer =
      .ok { model := noFilterLayer, data_source := .cds (some smallFrame),
            object_key := some "Line", x_axis := some {} } ∧
    LayerData.cds (some smallFrame) ≠
      LayerData.frame smallChartDoc.data_source.data := by
  exact ⟨rfl, by decide⟩

/-- C5 (amended): with a null filter expression the data-preparation step
returns the table of the document itself (no copy); the map factory hands exactly
that table to the layer recipe, while the chart factory hands a
ColumnDataSource constructed from it. -/
theorem null_filter_layer_table (ds : DataSource) (doc : Document)
    (o : MapOptions) (l : Layer)
    (hfe : l.filter_expression = none) (hm : doc.model = .mapOpts o) :
    prepare_layer_data_source ds none = .ok ds.data ∧
    prepare_layer_document .map doc l =
      .ok { model := l, data_source := .frame doc.data_source.data,
            object_key := l.figure.object_key,
            latitude := o.latitude, longtitude := o.longtitude } ∧
    prepare_layer_document .chart doc l =
      .ok { model := l, data_source := .cds doc.data_source.data,
            object_key := l.figure.object_key,
            x_axis := some doc.model.x_axis } := by
  refine ⟨rfl, ?_, ?_⟩
  · simp [prepare_layer_document, prepare_layer_data_source, hfe, hm]
  · simp [prepare_layer_document, prepare_layer_data_source, hfe, hm]

/-- C5 witness: the amended statement for a map document and a chart document
over concrete tables. -/
theorem null_filter_layer_table_witness :
    prepare_layer_data_source ({ data := some smallFrame } : DataSource)
        none = .ok (some smallFrame) ∧
    prepare_layer_document .map goodMapDoc noFilterLayer =
      .ok { model := noFilterLayer, data_source := .frame (some coordsFrame),
            object_key := some "Line",
            latitude := mapOptsLL.latitude,
            longtitude := mapOptsLL.longtitude } ∧
    prepare_layer_document .chart goodMapDoc noFilterLayer =
      .ok { model := noFilterLayer, data_source := .cds (some coordsFrame),
            object_key := some "Line",
            x_axis := some goodMapDoc.model.x_axis } :=
  null_filter_layer_table { data := some smallFrame } goodMapDoc mapOptsLL
    noFilterLayer rfl rfl

/-- C6 (counterexample): a failed recipe lookup during create_object
propagates as the raw KeyError; it is not wrapped in a CreatorError. -/
theorem creator_error_not_raised_counterexample :
    create_object .chart chartRecipes triangleChartDoc =
      .error (.keyError "Triangle") ∧
    (PyErr.keyError "Triangle").isCreatorError = false := by
  exact ⟨rfl, rfl⟩

/-- C6 (amended): whenever a per-layer build or recipe lookup raises during
create_object, the whole construction aborts - create_object returns the
error, never a canvas - and the raw underlying exception propagates unchanged
(the factory wraps nothing in CreatorError). -/
theorem layer_failure_aborts_unwrapped (kind : FactoryKind) (reg : Registry)
    (doc : Document) (e : PyErr) (c0 c1 : Canvas) (m : Option Layer)
    (t0 t1 : List RecipeCls) (u1 : List Layer)
    (hv : validate kind doc = .ok ())
    (hb : build reg [] (.doc doc) none = .ok c0 m t0)
    (hl : runLayers kind reg doc doc.model.layers c0 t0 =
      (c1, t1, u1, some e)) :
    create_object kind reg doc = .error e := by
  unfold create_object createObjectFull
  rw [hv, hb]
  simp only [hl]

/-- C6 witness: the amended statement at the Triangle-layer chart document. -/
theorem layer_failure_aborts_unwrapped_witness :
    create_object .chart chartRecipes triangleChartDoc =
      .error (.keyError "Triangle") :=
  layer_failure_aborts_unwrapped .chart chartRecipes triangleChartDoc
    (.keyError "Triangle")
    [.figureCreated 500 500 none none, .titleSet none none none none]
    [.figureCreated 500 500 none none, .titleSet none none none none]
    none [.hoverToolRecipe] [.hoverToolRecipe] [layerWithKey "Triangle"]
    rfl rfl rfl

/-- C7: MapFactory.validate raises InvalidCoordinatesError listing the
offending coordinate column names whenever the latitude or longtitude column
contains a non-numeric value, and passes (returns without raising) when both
coordinate columns are fully numeric. -/
theorem map_validate_coordinates (doc : Document) (o : MapOptions)
    (df : DataFrame)
    (hm : doc.model = .mapOpts o)
    (hd : doc.data_source.data = some df) :
    (columnNumeric df (pyFmt o.latitude.data_field) = true →
     columnNumeric df (pyFmt o.longtitude.data_field) = true →
     validate .map doc = .ok ()) ∧
    (columnNumeric df (pyFmt o.latitude.data_field) = false →
     validate .map doc = .error (.invalidCoordinates
        (get_invalid_columns [o.latitude, o.longtitude] df)) ∧
     pyFmt o.latitude.data_field ∈
        get_invalid_columns [o.latitude, o.longtitude] df) ∧
    (columnNumeric df (pyFmt o.longtitude.data_field) = false →
     validate .map doc = .error (.invalidCoordinates
        (get_invalid_columns [o.latitude, o.longtitude] df)) ∧
     pyFmt o.longtitude.data_field ∈
        get_invalid_columns [o.latitude, o.longtitude] df) := by
  have hg : ∀ p q : Bool,
      columnNumeric df (pyFmt o.latitude.data_field) = p →
      columnNumeric df (pyFmt o.longtitude.data_field) = q →
      get_invalid_columns [o.latitude, o.longtitude] df =
        (if p then [] else [pyFmt o.latitude.data_field]) ++
        (if q then [] else [pyFmt o.longtitude.data_field]) := by
    intro p q hp hq
    cases p <;> cases q <;>
      simp [get_invalid_columns, hp, hq]
  refine ⟨?_, ?_, ?_⟩
  · intro hla hlo
    have hinv := hg true true hla hlo
    simp only [validate, hm, hd, hinv]
    simp
  · intro hla
    cases hlo : columnNumeric df (pyFmt o.longtitude.data_field) with
    | false =>
      have hinv := hg false false hla hlo
      constructor
      · simp only [validate, hm, hd]
        rw [hinv]
        simp
      · rw [hinv]; simp
    | true =>
      have hinv := hg false true hla hlo
      constructor
      · simp only [validate, hm, hd]
        rw [hinv]
        simp
      · rw [hinv]; simp
  · intro hlo
    cases hla : columnNumeric df (pyFmt o.latitude.data_field) with
    | false =>
      have hinv := hg false false hla hlo
      constructor
      · simp only [validate, hm, hd]
        rw [hinv]
        simp
      · rw [hinv]; simp
    | true =>
      have hinv := hg true false hla hlo
      constructor
      · simp only [validate, hm, hd]
        rw [hinv]
        simp
      · rw [hinv]; simp

/-- C7 witness: validation raises InvalidCoordinatesError naming lat for the
document whose lat column holds a string, and passes for the fully numeric
document. -/
theorem map_validate_coordinates_witness :
    validate .map badMapDoc = .error (.invalidCoordinates ["lat"]) ∧
    validate .map goodMapDoc = .ok () := by
  constructor
  · exact ((map_validate_coordinates badMapDoc mapOptsLL badCoordsFrame
      rfl rfl).2.1 (by decide)).1
  · exact (map_validate_coordinates goodMapDoc mapOptsLL coordsFrame
      rfl rfl).1 (by decide) (by decide)

/-- C8 (counterexample): for the zero-layer map document the post_execute
companion of the base recipe is queued (the post-task list is not empty) and fires,
so the returned canvas is the base output plus a LayerControl - not the direct
output of the base recipe. -/
theorem zero_layers_post_task_counterexample :
    createObjectFull .map mapRecipes goodMapDoc =
      { canvas := [.mapCreated (some "OSM"), .layerControlAdded],
        tasks := [.layerControlRecipe], docFinal := goodMapDoc,
        err := none } ∧
    RecipeCls.mapRecipe.exec (.doc goodMapDoc) none =
      .ok ([.mapCreated (some "OSM")], none) ∧
    ([CanvasOp.mapCreated (some "OSM"), .layerControlAdded] ≠
      [CanvasOp.mapCreated (some "OSM")]) ∧
    ([RecipeCls.layerControlRecipe] ≠ ([] : List RecipeCls)) := by
  exact ⟨rfl, rfl, by decide, by decide⟩

/-- C8 (amended): for a zero-layer document whose base recipe declares a
post_execute companion, create_object returns the direct output of the base recipe
with that single queued companion applied once; the post-task list holds
exactly the companion of the base recipe. -/
theorem zero_layers_base_post (kind : FactoryKind) (reg : Registry)
    (doc : Document) (r p : RecipeCls) (c0 c1 : Canvas) (m1 : Option Layer)
    (hl : doc.model.layers = [])
    (hv : validate kind doc = .ok ())
    (hr : getRecipe reg (some doc.object_key) = .ok r)
    (hp : r.post_execute_attr = some (some p))
    (hc : r.exec (.doc doc) none = .ok (c0, none))
    (hpost : p.exec (.doc doc) (some c0) = .ok (c1, m1)) :
    createObjectFull kind reg doc =
      { canvas := c1, tasks := [p], docFinal := doc, err := none } := by
  have hsl : doc.model.setLayers [] = doc.model := by
    cases hmm : doc.model with
    | chart o =>
      rcases o with ⟨i, de, w, hg, xa, lys, tt⟩
      rw [hmm] at hl
      simp only [DocModel.layers] at hl
      subst hl
      rfl
    | mapOpts o =>
      rcases o with ⟨tt, de, xa, lys, la, lo, ti⟩
      rw [hmm] at hl
      simp only [DocModel.layers] at hl
      subst hl
      rfl
  have hbb : build reg [] (.doc doc) none = .ok c0 none [p] := by
    simp only [build, AnyDoc.object_key, hr, hc, hp]
    rfl
  unfold createObjectFull
  rw [hv, hbb, hl]
  simp only [runLayers]
  rw [hsl]
  simp only [run_post_tasks, hpost]

/-- C8 witness: the amended statement at the zero-layer map document (base
recipe MapRecipe, companion LayerControlRecipe). -/
theorem zero_layers_base_post_witness :
    createObjectFull .map mapRecipes goodMapDoc =
      { canvas := [.mapCreated (some "OSM"), .layerControlAdded],
        tasks := [.layerControlRecipe], docFinal := goodMapDoc,
        err := none } :=
  zero_layers_base_post .map mapRecipes goodMapDoc .mapRecipe
    .layerControlRecipe [.mapCreated (some "OSM")]
    [.mapCreated (some "OSM"), .layerControlAdded] none
    rfl rfl rfl rfl rfl rfl

/-- C9 (counterexample): building the chart document with one Line layer whose
axis has no display name mutates the model of the input document in place -
the axis.name of the layer is overwritten with its data_field. -/
theorem factory_mutates_axis_name_counterexample :
    (createObjectFull .chart chartRecipes lineChartDoc).docFinal ≠
      lineChartDoc ∧
    (createObjectFull .chart chartRecipes
        lineChartDoc).docFinal.model.layers =
      [{ axis := { data_field := some "squares", name := some "squares" },
         figure := { object_key := some "Line" } }] := by
  exact ⟨by decide, rfl⟩

/-- C9 (amended): create_object never mutates the bound table of the document
(data_source is preserved in every outcome), but it does not leave the model
unchanged: each chart layer recipe (Line, Circle, Square) overwrites
axis.name of the built layer with its data_field whenever the name is None or
empty. -/
theorem factory_preserves_table_mutates_names (kind : FactoryKind)
    (reg : Registry) (doc : Document) :
    (createObjectFull kind reg doc).docFinal.data_source = doc.data_source ∧
    (∀ (l : Layer) (src : LayerData) (k : Option String) (xa : Axis)
       (la lo : Axis) (c : Canvas),
       RecipeCls.lineRecipe.exec
           (.layerDoc { model := l, data_source := src, object_key := k,
                        x_axis := some xa, latitude := la, longtitude := lo })
           (some c) =
         .ok (c ++ [.yaxisLabel (pyOr l.axis.name l.axis.data_field)] ++
               [.glyph "line" xa.data_field l.axis.data_field
                 (pyOr l.axis.name l.axis.data_field) src],
              some { l with axis := { l.axis with
                name := pyOr l.axis.name l.axis.data_field } })) := by
  constructor
  · unfold createObjectFull
    split
    · rfl
    · split
      · rfl
      · rfl
      · split
        · rfl
        · dsimp only
          split <;> rfl
  · intro l src k xa la lo c
    rfl

/-- C9 witness: the amended statement at the Line-layer chart document and a
concrete layer. -/
theorem factory_preserves_table_mutates_names_witness :
    (createObjectFull .chart chartRecipes lineChartDoc).docFinal.data_source =
      lineChartDoc.data_source ∧
    RecipeCls.lineRecipe.exec
        (.layerDoc { model := lineLayer, data_source := .cds none,
                     object_key := some "Line",
                     x_axis := some { data_field := some "numbers" } })
        (some []) =
      .ok ([.yaxisLabel (some "squares")] ++
            [.glyph "line" (some "numbers") (some "squares")
              (some "squares") (.cds none)],
           some { axis := { data_field := some "squares",
                            name := some "squares" },
                  figure := { object_key := some "Line" } }) :=
  ⟨(factory_preserves_table_mutates_names .chart chartRecipes
      lineChartDoc).1,
   (factory_preserves_table_mutates_names .chart chartRecipes
      lineChartDoc).2 lineLayer (.cds none) (some "Line")
      { data_field := some "numbers" } {} {} []⟩

/-- C10: two Document instances that never had data_source assigned resolve
data_source to the one class-level default DataSource object, so setting the
data field through one instance is observable through the other. -/
theorem shared_class_default_data_source (h : DSHeap)
    (d1 d2 : DocumentInstance) (ds0 : DataSource) (df : DataFrame)
    (h1 : d1.data_source_attr = none) (h2 : d2.data_source_attr = none)
    (hh : h documentClassDefaultRef = some ds0) :
    d1.data_source_ref = d2.data_source_ref ∧
    readDataSource (setDataThrough h d1 df) d2 =
      some { ds0 with data := some df } := by
  have e1 : d1.data_source_ref = documentClassDefaultRef := by
    simp [DocumentInstance.data_source_ref, h1]
  have e2 : d2.data_source_ref = documentClassDefaultRef := by
    simp [DocumentInstance.data_source_ref, h2]
  constructor
  · rw [e1, e2]
  · simp [readDataSource, setDataThrough, e1, e2, hh]

/-- C10 witness: on the initial heap, writing a dataframe through one fresh
instance is read back through another fresh instance. -/
theorem shared_class_default_data_source_witness :
    (⟨none⟩ : DocumentInstance).data_source_ref =
      (⟨none⟩ : DocumentInstance).data_source_ref ∧
    readDataSource (setDataThrough initialHeap ⟨none⟩ c10Frame) ⟨none⟩ =
      some { data := some c10Frame } :=
  shared_class_default_data_source initialHeap ⟨none⟩ ⟨none⟩ {} c10Frame
    rfl rfl rfl
